import Mathlib

/-!
Shallow embedding of `src/core/CL/kernels/CLWidthConcatenate2TensorsKernel.cpp`
(arm_compute, 2018-2020): the width-concatenation-of-two-tensors CL kernel.

The kernel source itself is embedded faithfully.  Helpers that live outside
this repository snapshot (window calculation, access-window merging, the
error-reporting macros, string helpers) are modelled from the specification
and carry a doc comment starting with `Modelled from the spec:`.
-/

/-- Element data types of tensors (the subset of the arm_compute `DataType`
enumeration relevant to this kernel). -/
inductive DataType where
  | UNKNOWN
  | U8
  | S8
  | QASYMM8
  | QASYMM8_SIGNED
  | U16
  | S16
  | F16
  | F32
deriving DecidableEq, Repr

/-- `is_data_type_quantized_asymmetric`: true exactly on the asymmetric
quantized types. -/
def is_data_type_quantized_asymmetric (dt : DataType) : Bool :=
  match dt with
  | DataType.QASYMM8 => true
  | DataType.QASYMM8_SIGNED => true
  | _ => false

/-- Modelled from the spec: error taxonomy of §7 (the `ARM_COMPUTE_*` error
macros are outside src/).  `INVALID_ARGUMENT` classifies descriptor-validation
failures, `RUNTIME_ERROR` the insufficient-padding condition. -/
inductive ErrorCode where
  | OK
  | INVALID_ARGUMENT
  | RUNTIME_ERROR
deriving DecidableEq, Repr

/-- A returned status: an error code plus a human-readable description. -/
structure Status where
  error_code : ErrorCode
  error_description : String
deriving DecidableEq, Repr

/-- The OK status (default-constructed `Status{}`). -/
def Status.ok : Status := ⟨ErrorCode.OK, ""⟩

/-- `UniformQuantizationInfo`: one affine (scale, offset) pair.  The C++
`float` scale is modelled as an exact rational; no arithmetic is performed on
it by this kernel (only equality comparison and formatting). -/
structure UniformQuantizationInfo where
  scale : Rat
  offset : Int
deriving DecidableEq, Repr

/-- Declared padding of a tensor (elements around the tensor's own extent). -/
structure PaddingSize where
  top : Nat
  right : Nat
  bottom : Nat
  left : Nat
deriving DecidableEq, Repr

/-- A tensor's valid region: anchor coordinates plus a shape. -/
structure ValidRegion where
  anchor : List Nat
  shape : List Nat
deriving DecidableEq, Repr

/-- Modelled from the spec: `Coordinates::num_max_dimensions`, the fixed
number of dimension slots of a tensor shape (6 in arm_compute). -/
def Coordinates.num_max_dimensions : Nat := 6

/-- Modelled from the spec: default-constructed `Coordinates()`, the origin. -/
def Coordinates.origin : List Nat := List.replicate Coordinates.num_max_dimensions 0

/-- The observable state of an `ITensorInfo` descriptor that this kernel
reads or writes: shape, declared dimensionality, data type, element byte
size, uniform quantization info, declared padding and valid region. -/
structure TensorDescriptor where
  dims : List Nat
  num_dimensions : Nat
  data_type : DataType
  element_size : Nat
  quantization_info : UniformQuantizationInfo
  padding : PaddingSize
  valid_region : ValidRegion
deriving DecidableEq, Repr

/-- `ITensorInfo::dimension(i)`: the extent along dimension `i`; unset
dimension slots read as 1 (arm_compute `TensorShape` convention). -/
def TensorDescriptor.dimension (t : TensorDescriptor) (i : Nat) : Nat :=
  t.dims.getD i 1

/-- `ITensorInfo::clone()`: descriptors have value semantics here, so a clone
is a copy of the value. -/
def TensorDescriptor.clone (t : TensorDescriptor) : TensorDescriptor := t

/-- `constexpr unsigned int num_elems_processed_per_iteration = 8` (the chunk
width W). -/
def num_elems_processed_per_iteration : Nat := 8

/-- `ceil_to_multiple` on unbounded naturals: round `value` up to the next
multiple of `divisor`. -/
def ceil_to_multiple (value divisor : Nat) : Nat :=
  (value + divisor - 1) / divisor * divisor

/-- Wraparound subtraction of C++ 32-bit unsigned arithmetic. -/
def usub32 (a b : Nat) : Nat :=
  (a % 2 ^ 32 + (2 ^ 32 - b % 2 ^ 32)) % 2 ^ 32

/-- Wraparound subtraction of C++ 64-bit unsigned (`size_t`) arithmetic. -/
def usub64 (a b : Nat) : Nat :=
  (a % 2 ^ 64 + (2 ^ 64 - b % 2 ^ 64)) % 2 ^ 64

/-- `ceil_to_multiple` as evaluated in 32-bit unsigned arithmetic:
`(value + divisor - 1) / divisor * divisor` with wraparound addition. -/
def ceil_to_multiple_u32 (value divisor : Nat) : Nat :=
  (value % 2 ^ 32 + divisor - 1) % 2 ^ 32 / divisor * divisor % 2 ^ 32

/-- The kernel argument `input1_right_padding` computed by `configure`
(line 131): `ceil_to_multiple(input1_width, 8) - input1_width` in 32-bit
unsigned arithmetic, where `input1_width` is already a 32-bit value. -/
def input1_right_padding_arg (input1_width : Nat) : Nat :=
  usub32 (ceil_to_multiple_u32 input1_width num_elems_processed_per_iteration) input1_width

/-- The kernel argument `input2_left_padding` computed by `configure`
(line 132): `input1_width % 8`. -/
def input2_left_padding_arg (input1_width : Nat) : Nat :=
  input1_width % num_elems_processed_per_iteration

/-- `input2_right_padding` computed by `validate_and_configure_window`
(lines 50-51): `((output.width / 8) * 8 - input1.width - input2.width) % 8`
with both subtractions performed in wrapping `size_t` arithmetic. -/
def input2_right_padding (output_width input1_width input2_width : Nat) : Nat :=
  usub64 (usub64 (output_width % 2 ^ 64 / num_elems_processed_per_iteration
      * num_elems_processed_per_iteration) input1_width) input2_width
    % num_elems_processed_per_iteration

/-- `validate_arguments` (lines 62-78).  `fp16_supported` models the device
capability consulted by `ARM_COMPUTE_RETURN_ERROR_ON_F16_UNSUPPORTED`.  Null
pointers are modelled by `Option`. -/
def validate_arguments (fp16_supported : Bool)
    (input1 input2 output : Option TensorDescriptor) : Status :=
  match input1, input2, output with
  | some i1, some i2, some o =>
    if i1.data_type = DataType.F16 ∧ fp16_supported = false then
      ⟨ErrorCode.INVALID_ARGUMENT, "FP16 not supported by the device"⟩
    else if i1.data_type = DataType.UNKNOWN then
      ⟨ErrorCode.INVALID_ARGUMENT, "data type is UNKNOWN"⟩
    else if ¬(i1.data_type = i2.data_type ∧ i1.data_type = o.data_type) then
      ⟨ErrorCode.INVALID_ARGUMENT, "mismatching data types"⟩
    else if o.dimension 0 < i1.dimension 0 + i2.dimension 0 then
      ⟨ErrorCode.INVALID_ARGUMENT, "inputs do not fit in the output width"⟩
    else if (List.range' 1 (Coordinates.num_max_dimensions - 1)).any
        (fun i => i1.dimension i ≠ o.dimension i ∨ i2.dimension i ≠ o.dimension i) then
      ⟨ErrorCode.INVALID_ARGUMENT, "mismatching dimensions above the width"⟩
    else if 4 < i1.num_dimensions then
      ⟨ErrorCode.INVALID_ARGUMENT, "more than 4 dimensions"⟩
    else Status.ok
  | _, _, _ => ⟨ErrorCode.INVALID_ARGUMENT, "nullptr argument"⟩

/-- One dimension of an iteration window: a half-open `[start, stop)` range
traversed with the given step. -/
structure WinDim where
  start : Nat
  stop : Nat
  step : Nat
deriving DecidableEq, Repr

/-- An iteration window: one `WinDim` per dimension slot. -/
structure Window where
  dims : List WinDim
deriving DecidableEq, Repr

/-- Dimension `i` of a window; unset slots read as the degenerate `[0,1)`
range with step 1. -/
def Window.dim (w : Window) (i : Nat) : WinDim :=
  w.dims.getD i ⟨0, 1, 1⟩

/-- Number of iterations a window dimension performs. -/
def WinDim.num_iterations (d : WinDim) : Nat :=
  (d.stop - d.start + d.step - 1) / d.step

/-- Modelled from the spec: `calculate_max_window(*output, Steps(W))`
(§4.2 step 1) — axis 0 is `[0, output.width)` stepped by `W`, every other
axis covers its full extent with step 1. -/
def calculate_max_window (t : TensorDescriptor) (step0 : Nat) : Window :=
  ⟨[⟨0, t.dimension 0, step0⟩, ⟨0, t.dimension 1, 1⟩, ⟨0, t.dimension 2, 1⟩,
    ⟨0, t.dimension 3, 1⟩, ⟨0, t.dimension 4, 1⟩, ⟨0, t.dimension 5, 1⟩]⟩

/-- Modelled from the spec: `win.collapse(win, Window::DimZ)` (§4.2 step 7) —
all dimensions from axis 2 upward are merged into a single axis-2 iteration
dimension; axes 0 and 1 are kept. -/
def Window.collapse (w : Window) : Window :=
  ⟨[w.dim 0, w.dim 1,
    ⟨0, ((w.dim 2).stop - (w.dim 2).start) * ((w.dim 3).stop - (w.dim 3).start)
      * ((w.dim 4).stop - (w.dim 4).start) * ((w.dim 5).stop - (w.dim 5).start), 1⟩,
    ⟨0, 1, 1⟩, ⟨0, 1, 1⟩, ⟨0, 1, 1⟩]⟩

/-- `AccessWindowStatic(tensor, start_x, start_y, end_x, end_y)` — the
rectangle of elements the kernel may touch on that tensor, in tensor
coordinates (so negative starts and ends past the extent mean padding). -/
structure AccessWindowStatic where
  start_x : Int
  start_y : Int
  end_x : Int
  end_y : Int
deriving DecidableEq, Repr

/-- `AccessWindowHorizontal(tensor, x_offset, width)` — an axis-0-only access
pattern of the given chunk width. -/
structure AccessWindowHorizontal where
  x_offset : Int
  width : Nat
deriving DecidableEq, Repr

/-- Modelled from the spec: whether a static access pattern needs more
padding than the tensor declares (§4.2 step 6) — the pattern's overhang on
each side of the tensor's extent is compared with the declared padding. -/
def static_access_exceeds_padding (t : TensorDescriptor) (a : AccessWindowStatic) : Bool :=
  decide (t.padding.left < (-a.start_x).toNat
    ∨ t.padding.right < (a.end_x - (t.dimension 0 : Int)).toNat
    ∨ t.padding.top < (-a.start_y).toNat
    ∨ t.padding.bottom < (a.end_y - (t.dimension 1 : Int)).toNat)

/-- Modelled from the spec: whether the horizontal (axis-0, chunk-wide)
access pattern over the window needs more padding than the tensor declares —
the stepped window covers axis 0 up to the end of its last chunk. -/
def horizontal_access_exceeds_padding (win : Window) (t : TensorDescriptor)
    (a : AccessWindowHorizontal) : Bool :=
  decide (t.padding.left < (-(a.x_offset + ((win.dim 0).start : Int))).toNat
    ∨ t.padding.right
      < (((win.dim 0).start + (win.dim 0).num_iterations * (win.dim 0).step : Int)
         + a.x_offset - (t.dimension 0 : Int)).toNat)

/-- Modelled from the spec: `update_window_and_padding(win, input1_access,
input2_access, output_access)` (§4.2 step 6) — merging the three access
patterns into the base window; returns true exactly when some pattern's
implicit padding requirement exceeds what its descriptor already declares
(the "window or padding changed" condition); it does not grow the tensors. -/
def update_window_and_padding (win : Window)
    (input1 : TensorDescriptor) (input1_access : AccessWindowStatic)
    (input2 : TensorDescriptor) (input2_access : AccessWindowStatic)
    (output : TensorDescriptor) (output_access : AccessWindowHorizontal) : Bool :=
  static_access_exceeds_padding input1 input1_access
    || static_access_exceeds_padding input2 input2_access
    || horizontal_access_exceeds_padding win output output_access

/-- `validate_and_configure_window` (lines 45-61): build the output-based
window, the three access patterns (with the source's exact bounds), merge
them, and return `RUNTIME_ERROR "Insufficient Padding!"` when that changed
the window or padding, paired with the DimZ-collapsed window. -/
def validate_and_configure_window (input1 input2 output : TensorDescriptor) :
    Status × Window :=
  let win := calculate_max_window output num_elems_processed_per_iteration
  let input1_access : AccessWindowStatic :=
    ⟨0, 0, (ceil_to_multiple (input1.dimension 0) num_elems_processed_per_iteration : Int),
     (input1.dimension 1 : Int)⟩
  let i2_right := input2_right_padding (output.dimension 0) (input1.dimension 0) (input2.dimension 0)
  let input2_access : AccessWindowStatic :=
    ⟨-((input1.dimension 0 % num_elems_processed_per_iteration : Nat) : Int), 0,
     ((input2.dimension 0 + i2_right : Nat) : Int), (input2.dimension 1 : Int)⟩
  let output_access : AccessWindowHorizontal := ⟨0, num_elems_processed_per_iteration⟩
  let window_changed :=
    update_window_and_padding win input1 input1_access input2 input2_access output output_access
  let win_collapsed := Window.collapse win
  let err := if window_changed then ⟨ErrorCode.RUNTIME_ERROR, "Insufficient Padding!"⟩
             else Status.ok
  (err, win_collapsed)

/-- Modelled from the spec: `string_from_data_type` — the upper-case name of
a data type. -/
def string_from_data_type (dt : DataType) : String :=
  match dt with
  | DataType.UNKNOWN => "UNKNOWN"
  | DataType.U8 => "U8"
  | DataType.S8 => "S8"
  | DataType.QASYMM8 => "QASYMM8"
  | DataType.QASYMM8_SIGNED => "QASYMM8_SIGNED"
  | DataType.U16 => "U16"
  | DataType.S16 => "S16"
  | DataType.F16 => "F16"
  | DataType.F32 => "F32"

/-- Modelled from the spec: `lower_string` — lower-case a string. -/
def lower_string (s : String) : String := ⟨s.data.map Char.toLower⟩

/-- Modelled from the spec: `get_cl_type_from_data_type` — the OpenCL C type
name of a data type. -/
def get_cl_type_from_data_type (dt : DataType) : String :=
  match dt with
  | DataType.UNKNOWN => ""
  | DataType.U8 => "uchar"
  | DataType.S8 => "char"
  | DataType.QASYMM8 => "uchar"
  | DataType.QASYMM8_SIGNED => "char"
  | DataType.U16 => "ushort"
  | DataType.S16 => "short"
  | DataType.F16 => "half"
  | DataType.F32 => "float"

/-- Modelled from the spec: `float_to_string_with_full_precision` — a
full-precision (lossless, injective) decimal rendering of the value; the
value is modelled as an exact rational and rendered exactly. -/
def float_to_string_with_full_precision (x : Rat) : String := toString x

/-- Modelled from the spec: `support::cpp11::to_string` on unsigned values. -/
def to_string_nat (n : Nat) : String := toString n

/-- Modelled from the spec:
`helpers::tensor_info::tensors_have_different_quantization_info` — true
exactly when input1, input2 and output do not all share identical uniform
quantization info. -/
def tensors_have_different_quantization_info (output input1 input2 : TensorDescriptor) : Bool :=
  decide (¬(input1.quantization_info = output.quantization_info
    ∧ input2.quantization_info = output.quantization_info))

/-- The build options accumulated by `configure` (lines 94-115): the five
unconditional `-D` macros, then — exactly when input1's type is an
asymmetric-quantized type and the three quantization infos are not all
identical — the six re-quantization constants. -/
def configure_build_options (input1 input2 output : TensorDescriptor) : List String :=
  let base := ["-DDATA_TYPE=" ++ get_cl_type_from_data_type input1.data_type,
               "-DVEC_SIZE=" ++ to_string_nat num_elems_processed_per_iteration,
               "-DDEPTH=" ++ to_string_nat (input1.dimension 2),
               "-DINPUT1_WIDTH=" ++ to_string_nat (input1.dimension 0),
               "-DELEMENT_SIZE=" ++ to_string_nat input1.element_size]
  if is_data_type_quantized_asymmetric input1.data_type
      && tensors_have_different_quantization_info output input1 input2 then
    base ++ ["-DOFFSET_IN1=" ++ float_to_string_with_full_precision (input1.quantization_info.offset : Rat),
             "-DSCALE_IN1=" ++ float_to_string_with_full_precision input1.quantization_info.scale,
             "-DOFFSET_IN2=" ++ float_to_string_with_full_precision (input2.quantization_info.offset : Rat),
             "-DSCALE_IN2=" ++ float_to_string_with_full_precision input2.quantization_info.scale,
             "-DOFFSET_OUT=" ++ float_to_string_with_full_precision (output.quantization_info.offset : Rat),
             "-DSCALE_OUT=" ++ float_to_string_with_full_precision output.quantization_info.scale]
  else base

/-- The `_config_id` string built by `configure` (lines 137-147). -/
def configure_config_id (input1 input2 : TensorDescriptor) : String :=
  "concatenate_width_x2_"
    ++ lower_string (string_from_data_type input1.data_type)
    ++ "_" ++ to_string_nat (input1.dimension 0)
    ++ "_" ++ to_string_nat (input1.dimension 1)
    ++ "_" ++ to_string_nat (input2.dimension 0)
    ++ "_" ++ to_string_nat (input2.dimension 1)

/-- Modelled from the spec: `ICLKernel::num_arguments_per_4D_tensor()` — the
number of kernel-argument slots one 4D tensor binding occupies (the external
4D-tensor binding convention of §6). -/
def num_arguments_per_4D_tensor : Nat := 10

/-- The observable state a successful `configure` commits: the compiled
kernel's name and build options, the collapsed iteration window, the scalar
kernel arguments set by index, and the tuning `_config_id`. -/
structure ConfiguredState where
  kernel_name : String
  build_options : List String
  window : Window
  kernel_args : List (Nat × Nat)
  config_id : String
deriving DecidableEq, Repr

/-- `CLWidthConcatenate2TensorsKernel::configure` (lines 88-148): validate
the arguments (abort on failure), build the compile options, create the
kernel, plan the window (abort on failure), commit the window, set the
output's valid region, bind the two scalar paddings after the three tensor
argument slots, and build the tuning id.  Returns the committed state and
the three descriptors as left after the call. -/
def CLWidthConcatenate2TensorsKernel.configure (fp16_supported : Bool)
    (input1 input2 output : Option TensorDescriptor) :
    Except Status (ConfiguredState × TensorDescriptor × TensorDescriptor × TensorDescriptor) :=
  match input1, input2, output with
  | some i1, some i2, some o =>
    let va := validate_arguments fp16_supported (some i1) (some i2) (some o)
    if va.error_code = ErrorCode.OK then
      let build_opts := configure_build_options i1 i2 o
      let win_config := validate_and_configure_window i1 i2 o
      if win_config.1.error_code = ErrorCode.OK then
        let o' := { o with valid_region := ⟨Coordinates.origin, o.dims⟩ }
        let input1_width := i1.dimension 0 % 2 ^ 32
        let idx0 := 3 * num_arguments_per_4D_tensor
        Except.ok
          (⟨"concatenate_width_x2", build_opts, win_config.2,
            [(idx0, input1_right_padding_arg input1_width),
             (idx0 + 1, input2_left_padding_arg input1_width)],
            configure_config_id i1 i2⟩, i1, i2, o')
      else Except.error win_config.1
    else Except.error va
  | _, _, _ => Except.error ⟨ErrorCode.INVALID_ARGUMENT, "nullptr argument"⟩

/-- `CLWidthConcatenate2TensorsKernel::validate` (lines 81-86): run
`validate_arguments` on the descriptors, then the window planner on clones,
and return only the first failing status; the descriptors themselves are
returned as left after the call (the clones are discarded). -/
def CLWidthConcatenate2TensorsKernel.validate (fp16_supported : Bool)
    (input1 input2 output : Option TensorDescriptor) :
    Status × (Option TensorDescriptor × Option TensorDescriptor × Option TensorDescriptor) :=
  let st :=
    let va := validate_arguments fp16_supported input1 input2 output
    if va.error_code = ErrorCode.OK then
      match input1, input2, output with
      | some i1, some i2, some o =>
        (validate_and_configure_window i1.clone i2.clone o.clone).1
      | _, _, _ => va
    else va
  (st, (input1, input2, output))

/-- One observable action of `run_op`: re-describing and binding one of the
three tensors for a slice, binding a scalar argument, or enqueuing one unit
of work. -/
inductive RunEvent where
  | setTensorArg4D : Nat → Window → RunEvent
  | setScalarArg : Nat → RunEvent
  | enqueue : RunEvent
deriving DecidableEq, Repr

/-- Modelled from the spec: the sequence of 4D slices of a window visited by
`first_slice_window_4D` / `slide_window_slice_4D` (§4.5 steps 2-4) — the
slices fix dimensions 4 and 5 to one step each and iterate them over their
ranges; the do-while loop visits at least one slice. -/
def Window.slices4D (w : Window) : List Window :=
  (List.range (max 1 (w.dim 5).num_iterations)).flatMap (fun i5 =>
    (List.range (max 1 (w.dim 4).num_iterations)).map (fun i4 =>
      ⟨[w.dim 0, w.dim 1, w.dim 2, w.dim 3,
        ⟨(w.dim 4).start + i4 * (w.dim 4).step,
         (w.dim 4).start + i4 * (w.dim 4).step + (w.dim 4).step, (w.dim 4).step⟩,
        ⟨(w.dim 5).start + i5 * (w.dim 5).step,
         (w.dim 5).start + i5 * (w.dim 5).step + (w.dim 5).step, (w.dim 5).step⟩]⟩))

/-- The do-while body of `run_op` (lines 161-169), one iteration per
remaining slice: bind the three tensors for the slice, enqueue, continue. -/
def run_loop : List Window → List RunEvent
  | [] => []
  | s :: rest =>
    RunEvent.setTensorArg4D 0 s :: RunEvent.setTensorArg4D 1 s
      :: RunEvent.setTensorArg4D 2 s :: RunEvent.enqueue :: run_loop rest

/-- `CLWidthConcatenate2TensorsKernel::run_op` (lines 150-170): the trace of
argument-binding and enqueue actions it performs over the supplied window. -/
def CLWidthConcatenate2TensorsKernel.run_op (window : Window) : List RunEvent :=
  run_loop window.slices4D

/-- Whether a build option is one of the re-quantization ("rescale")
constants, i.e. starts with `-DOFFSET_` or `-DSCALE_`. -/
def is_rescale_option (s : String) : Bool :=
  "-DOFFSET_".data.isPrefixOf s.data || "-DSCALE_".data.isPrefixOf s.data

/-- Trivial uniform quantization info (scale 1, offset 0). -/
def q0 : UniformQuantizationInfo := ⟨1, 0⟩

/-- Zero declared padding. -/
def pad0 : PaddingSize := ⟨0, 0, 0, 0⟩

/-- An empty valid region, as a descriptor may declare before configure. -/
def vr0 : ValidRegion := ⟨[], []⟩

/-- Example input1: an 8x2 F32 tensor (widths aligned to the chunk width). -/
def i1c : TensorDescriptor := ⟨[8, 2], 2, DataType.F32, 4, q0, pad0, vr0⟩

/-- Example input2: an 8x2 F32 tensor. -/
def i2c : TensorDescriptor := ⟨[8, 2], 2, DataType.F32, 4, q0, pad0, vr0⟩

/-- Example output: a 16x2 F32 tensor, exactly wide enough for both inputs. -/
def oc : TensorDescriptor := ⟨[16, 2], 2, DataType.F32, 4, q0, pad0, vr0⟩

/-- The example output descriptor as left after a successful configure. -/
def oc_after : TensorDescriptor :=
  { oc with valid_region := ⟨Coordinates.origin, oc.dims⟩ }

/-- The state committed by configuring the example descriptors. -/
def cfgc : ConfiguredState :=
  ⟨"concatenate_width_x2",
   ["-DDATA_TYPE=float", "-DVEC_SIZE=8", "-DDEPTH=1", "-DINPUT1_WIDTH=8",
    "-DELEMENT_SIZE=4"],
   ⟨[⟨0, 16, 8⟩, ⟨0, 2, 1⟩, ⟨0, 1, 1⟩, ⟨0, 1, 1⟩, ⟨0, 1, 1⟩, ⟨0, 1, 1⟩]⟩,
   [(30, 0), (31, 0)],
   "concatenate_width_x2_f32_8_2_8_2"⟩

/-- The collapsed window produced for the example descriptors. -/
def wex : Window :=
  ⟨[⟨0, 16, 8⟩, ⟨0, 2, 1⟩, ⟨0, 1, 1⟩, ⟨0, 1, 1⟩, ⟨0, 1, 1⟩, ⟨0, 1, 1⟩]⟩

/-- Example input1 with a misaligned width (3) and no declared padding, so
window planning needs padding that is not declared. -/
def i1b : TensorDescriptor := ⟨[3, 2], 2, DataType.F32, 4, q0, pad0, vr0⟩

/-- Example input2 (width 5) for the insufficient-padding example. -/
def i2b : TensorDescriptor := ⟨[5, 2], 2, DataType.F32, 4, q0, pad0, vr0⟩

/-- Example output (width 8) for the insufficient-padding example. -/
def ob : TensorDescriptor := ⟨[8, 2], 2, DataType.F32, 4, q0, pad0, vr0⟩

/-- C8: the validate entry point mutates none of the three descriptors: the
observable descriptor state after `validate` equals the state before (window
planning runs only on clones, which are discarded). -/
theorem C8_validate_mutates_nothing :
    ∀ (fp16_supported : Bool) (input1 input2 output : Option TensorDescriptor),
      (CLWidthConcatenate2TensorsKernel.validate fp16_supported input1 input2 output).2
        = (input1, input2, output) := by
  intro fp16 input1 input2 output
  rfl

/-- C3: the `input2_right_padding` expression, evaluated with the code's
wrapping unsigned arithmetic, always yields a residual in `[0, 8)`, including
for the negative mathematical dividend at output width 30, input widths 20
and 10 (where it yields 2). -/
theorem C3_input2_right_padding_in_range :
    (∀ output_width input1_width input2_width : Nat,
       input2_right_padding output_width input1_width input2_width < 8)
    ∧ input2_right_padding 30 20 10 = 2 := by
  constructor
  · intro ow i1w i2w
    show _ % num_elems_processed_per_iteration < 8
    exact Nat.mod_lt _ (by decide)
  · decide

/-- C5: the two runtime scalar arguments computed by `configure` from the
(32-bit-truncated) input1 width satisfy
`input1_right_padding = ceil_to_multiple(input1.width, 8) - input1.width` and
`input2_left_padding = input1.width % 8`, each in `[0, 8)`, for every input1
width; in particular at width 20 they are 4 and 4. -/
theorem C5_scalar_padding_args :
    (∀ w : Nat,
       input1_right_padding_arg (w % 2 ^ 32) = ceil_to_multiple w 8 - w
       ∧ input2_left_padding_arg (w % 2 ^ 32) = w % 8
       ∧ input1_right_padding_arg (w % 2 ^ 32) < 8
       ∧ input2_left_padding_arg (w % 2 ^ 32) < 8)
    ∧ input1_right_padding_arg 20 = 4 ∧ input2_left_padding_arg 20 = 4 := by
  constructor
  · intro w
    unfold input1_right_padding_arg input2_left_padding_arg ceil_to_multiple_u32
      usub32 ceil_to_multiple num_elems_processed_per_iteration
    norm_num
    omega
  · constructor <;> decide

/-- C1: for every descriptor triple, the pure `validate` entry point returns
success exactly when `configure` on the same descriptors succeeds (both run
`validate_arguments` and then the window planner, validate on clones and
configure on the originals). -/
theorem C1_validate_iff_configure :
    ∀ (fp16_supported : Bool) (input1 input2 output : Option TensorDescriptor),
      (CLWidthConcatenate2TensorsKernel.validate fp16_supported input1 input2 output).1.error_code
          = ErrorCode.OK
        ↔ (CLWidthConcatenate2TensorsKernel.configure fp16_supported input1 input2 output).isOk
          = true := by
  intro fp16 input1 input2 output
  cases input1 with
  | none =>
    simp [CLWidthConcatenate2TensorsKernel.validate, CLWidthConcatenate2TensorsKernel.configure,
      validate_arguments, Except.isOk, Except.toBool]
  | some i1 =>
    cases input2 with
    | none =>
      simp [CLWidthConcatenate2TensorsKernel.validate, CLWidthConcatenate2TensorsKernel.configure,
        validate_arguments, Except.isOk, Except.toBool]
    | some i2 =>
      cases output with
      | none =>
        simp [CLWidthConcatenate2TensorsKernel.validate, CLWidthConcatenate2TensorsKernel.configure,
          validate_arguments, Except.isOk, Except.toBool]
      | some o =>
        by_cases h1 : (validate_arguments fp16 (some i1) (some i2) (some o)).error_code = ErrorCode.OK
        · by_cases h2 : (validate_and_configure_window i1 i2 o).1.error_code = ErrorCode.OK
          · simp [CLWidthConcatenate2TensorsKernel.validate,
              CLWidthConcatenate2TensorsKernel.configure, TensorDescriptor.clone, h1, h2,
              Except.isOk, Except.toBool]
          · simp [CLWidthConcatenate2TensorsKernel.validate,
              CLWidthConcatenate2TensorsKernel.configure, TensorDescriptor.clone, h1, h2,
              Except.isOk, Except.toBool]
        · simp [CLWidthConcatenate2TensorsKernel.validate,
            CLWidthConcatenate2TensorsKernel.configure, TensorDescriptor.clone, h1,
            Except.isOk, Except.toBool]

/-- C4: the descriptor validator returns OK exactly when no descriptor is
null, input1's type is device-supported and not the UNKNOWN sentinel, the
three types agree, the input widths fit in the output width, every dimension
of index at least 1 of each input matches the output, and input1 has at most
4 dimensions; every failure is an InvalidArgument-kind status (returned, not
thrown). -/
theorem C4_validate_arguments_iff :
    ∀ (fp16_supported : Bool) (input1 input2 output : Option TensorDescriptor),
      ((validate_arguments fp16_supported input1 input2 output).error_code = ErrorCode.OK
        ↔ ∃ i1 i2 o, input1 = some i1 ∧ input2 = some i2 ∧ output = some o
            ∧ (i1.data_type = DataType.F16 → fp16_supported = true)
            ∧ i1.data_type ≠ DataType.UNKNOWN
            ∧ i1.data_type = i2.data_type ∧ i1.data_type = o.data_type
            ∧ i1.dimension 0 + i2.dimension 0 ≤ o.dimension 0
            ∧ (∀ i, 1 ≤ i → i < Coordinates.num_max_dimensions →
                 i1.dimension i = o.dimension i ∧ i2.dimension i = o.dimension i)
            ∧ i1.num_dimensions ≤ 4)
      ∧ ((validate_arguments fp16_supported input1 input2 output).error_code = ErrorCode.OK
         ∨ (validate_arguments fp16_supported input1 input2 output).error_code
           = ErrorCode.INVALID_ARGUMENT) := by
  intro fp16 input1 input2 output
  cases input1 with
  | none => simp [validate_arguments]
  | some i1 =>
  cases input2 with
  | none => simp [validate_arguments]
  | some i2 =>
  cases output with
  | none => simp [validate_arguments]
  | some o =>
  constructor
  · simp only [Option.some.injEq]
    dsimp only [validate_arguments]
    rw [show List.range' 1 (Coordinates.num_max_dimensions - 1) = [1, 2, 3, 4, 5] by decide]
    split_ifs with h1 h2 h3 h4 h5 h6
    · simp only [false_iff]
      rintro ⟨a, b, c, rfl, rfl, rfl, hf16, -⟩
      have ht := hf16 h1.1
      rw [ht] at h1
      exact absurd h1.2 (by decide)
    · simp only [false_iff]
      rintro ⟨a, b, c, rfl, rfl, rfl, -, hunk, -⟩
      exact hunk h2
    · simp only [false_iff]
      rintro ⟨a, b, c, rfl, rfl, rfl, -, -, -, -, hw, -⟩
      omega
    · simp only [false_iff]
      rintro ⟨a, b, c, rfl, rfl, rfl, -, -, -, -, -, hdims, -⟩
      simp only [List.any_cons, List.any_nil, Bool.or_eq_true, decide_eq_true_eq,
        Bool.false_eq_true, or_false, ne_eq] at h5
      rcases h5 with h | h | h | h | h
      · rcases h with h | h
        · exact h (hdims 1 (by omega) (by decide)).1
        · exact h (hdims 1 (by omega) (by decide)).2
      · rcases h with h | h
        · exact h (hdims 2 (by omega) (by decide)).1
        · exact h (hdims 2 (by omega) (by decide)).2
      · rcases h with h | h
        · exact h (hdims 3 (by omega) (by decide)).1
        · exact h (hdims 3 (by omega) (by decide)).2
      · rcases h with h | h
        · exact h (hdims 4 (by omega) (by decide)).1
        · exact h (hdims 4 (by omega) (by decide)).2
      · rcases h with h | h
        · exact h (hdims 5 (by omega) (by decide)).1
        · exact h (hdims 5 (by omega) (by decide)).2
    · simp only [false_iff]
      rintro ⟨a, b, c, rfl, rfl, rfl, -, -, -, -, -, -, hnd⟩
      omega
    · refine iff_of_true rfl ⟨i1, i2, o, rfl, rfl, rfl, ?_, h2, h3.1, h3.2, by omega, ?_, by omega⟩
      · intro hf
        cases fp16 with
        | false => exact absurd ⟨hf, rfl⟩ h1
        | true => rfl
      · intro i hi1 hi6
        have hi6' : i < 6 := hi6
        simp only [List.any_cons, List.any_nil, Bool.or_eq_true, decide_eq_true_eq,
          Bool.false_eq_true, or_false, ne_eq, not_or] at h5
        push_neg at h5
        interval_cases i <;> tauto
    · simp only [false_iff]
      rintro ⟨a, b, c, rfl, rfl, rfl, -, -, ht1, ht2, -⟩
      exact h3 ⟨ht1, ht2⟩
  · dsimp only [validate_arguments]
    split_ifs <;> simp [Status.ok]

/-- C6: the six quantization constants are emitted as compile options exactly
when input1's type is asymmetric-quantized and the three descriptors do not
all share identical uniform quantization info, and then their values are
exactly the descriptors' uniform quantization fields; otherwise no rescale
constant (no `-DOFFSET_`/`-DSCALE_` option) is emitted. -/
theorem C6_rescale_constants :
    ∀ input1 input2 output : TensorDescriptor,
      (configure_build_options input1 input2 output).filter is_rescale_option
        = (if is_data_type_quantized_asymmetric input1.data_type
              && tensors_have_different_quantization_info output input1 input2 then
             ["-DOFFSET_IN1=" ++ float_to_string_with_full_precision (input1.quantization_info.offset : Rat),
              "-DSCALE_IN1=" ++ float_to_string_with_full_precision input1.quantization_info.scale,
              "-DOFFSET_IN2=" ++ float_to_string_with_full_precision (input2.quantization_info.offset : Rat),
              "-DSCALE_IN2=" ++ float_to_string_with_full_precision input2.quantization_info.scale,
              "-DOFFSET_OUT=" ++ float_to_string_with_full_precision (output.quantization_info.offset : Rat),
              "-DSCALE_OUT=" ++ float_to_string_with_full_precision output.quantization_info.scale]
           else []) := by
  intro i1 i2 o
  by_cases h : (is_data_type_quantized_asymmetric i1.data_type
      && tensors_have_different_quantization_info o i1 i2) = true
  · rw [if_pos h]
    unfold configure_build_options
    rw [if_pos h]
    rfl
  · rw [if_neg h]
    unfold configure_build_options
    rw [if_neg h]
    rfl

/-- The run loop binds three tensor arguments and enqueues once per slice. -/
theorem run_loop_eq_flatMap (slices : List Window) :
    run_loop slices
      = slices.flatMap (fun s =>
          [RunEvent.setTensorArg4D 0 s, RunEvent.setTensorArg4D 1 s,
           RunEvent.setTensorArg4D 2 s, RunEvent.enqueue]) := by
  induction slices with
  | nil => rfl
  | cons s rest ih => simp [run_loop, ih]

/-- C2 counterexample: on a concrete configured window, the per-slice trace
of `run_op` does not contain the two scalar padding bindings the claim says
each slice performs (the slice loop only binds the three tensors and
enqueues). -/
theorem C2_counterexample :
    ¬ (CLWidthConcatenate2TensorsKernel.run_op wex
        = wex.slices4D.flatMap (fun s =>
            [RunEvent.setTensorArg4D 0 s, RunEvent.setTensorArg4D 1 s,
             RunEvent.setTensorArg4D 2 s, RunEvent.setScalarArg 4,
             RunEvent.setScalarArg 4, RunEvent.enqueue])) := by
  decide

/-- C2 amended: on every run invocation each iterated 4D slice binds the
input1, input2 and output buffer arguments re-described for that slice and
then enqueues one unit of work, the loop terminating when no further slice
exists; the two scalar paddings (input1_right_padding, input2_left_padding)
are not re-bound per slice — they are bound once by `configure`, in the two
argument slots immediately after the three tensors' slots. -/
theorem C2_run_trace_amended :
    (∀ window : Window,
       CLWidthConcatenate2TensorsKernel.run_op window
         = window.slices4D.flatMap (fun s =>
             [RunEvent.setTensorArg4D 0 s, RunEvent.setTensorArg4D 1 s,
              RunEvent.setTensorArg4D 2 s, RunEvent.enqueue]))
    ∧ (∀ (fp16_supported : Bool) (input1 input2 output : Option TensorDescriptor)
         (st : ConfiguredState) (t1 t2 t3 : TensorDescriptor),
        CLWidthConcatenate2TensorsKernel.configure fp16_supported input1 input2 output
            = Except.ok (st, t1, t2, t3)
        → ∃ d1, input1 = some d1
            ∧ st.kernel_args
              = [(3 * num_arguments_per_4D_tensor,
                  input1_right_padding_arg (d1.dimension 0 % 2 ^ 32)),
                 (3 * num_arguments_per_4D_tensor + 1,
                  input2_left_padding_arg (d1.dimension 0 % 2 ^ 32))]) := by
  constructor
  · intro window
    exact run_loop_eq_flatMap window.slices4D
  · intro fp16 input1 input2 output st t1 t2 t3 h
    cases input1 with
    | none => exact absurd h (by simp [CLWidthConcatenate2TensorsKernel.configure])
    | some i1 =>
    cases input2 with
    | none => exact absurd h (by simp [CLWidthConcatenate2TensorsKernel.configure])
    | some i2 =>
    cases output with
    | none => exact absurd h (by simp [CLWidthConcatenate2TensorsKernel.configure])
    | some o =>
    refine ⟨i1, rfl, ?_⟩
    dsimp only [CLWidthConcatenate2TensorsKernel.configure] at h
    split_ifs at h with h1 h2
    simp only [Except.ok.injEq, Prod.mk.injEq] at h
    rw [← h.1]

/-- C2 witness: the amended statement instantiated on the example window and
the example configuration. -/
theorem C2_witness :
    CLWidthConcatenate2TensorsKernel.run_op wex
      = wex.slices4D.flatMap (fun s =>
          [RunEvent.setTensorArg4D 0 s, RunEvent.setTensorArg4D 1 s,
           RunEvent.setTensorArg4D 2 s, RunEvent.enqueue])
    ∧ ∃ st t1 t2 t3,
        CLWidthConcatenate2TensorsKernel.configure true (some i1c) (some i2c) (some oc)
            = Except.ok (st, t1, t2, t3)
          ∧ st.kernel_args = [(30, 0), (31, 0)] := by
  constructor
  · exact C2_run_trace_amended.1 wex
  · obtain ⟨d1, hd1, hk⟩ := C2_run_trace_amended.2 true (some i1c) (some i2c) (some oc)
      cfgc i1c i2c oc_after (by with_unfolding_all rfl)
    refine ⟨cfgc, i1c, i2c, oc_after, by with_unfolding_all rfl, ?_⟩
    injection hd1 with hd1'
    subst hd1'
    rw [hk]
    decide

/-- The planner's status is the insufficient-padding error exactly when the
merge step reported a change. -/
theorem ite_insufficient_padding_iff (b : Bool) :
    (if b = true then (⟨ErrorCode.RUNTIME_ERROR, "Insufficient Padding!"⟩ : Status)
     else Status.ok)
        = ⟨ErrorCode.RUNTIME_ERROR, "Insufficient Padding!"⟩
      ↔ b = true := by
  cases b <;> simp [Status.ok]

/-- C7: window planning returns the RuntimeError status "Insufficient
Padding!" exactly when merging the three access patterns into the base
output-derived window changed the window or padding (i.e. some pattern needs
more padding than the descriptors declare), and on a window-planning error
`configure` aborts with an error instead of committing a configured state. -/
theorem C7_insufficient_padding :
    (∀ input1 input2 output : TensorDescriptor,
       (validate_and_configure_window input1 input2 output).1
           = ⟨ErrorCode.RUNTIME_ERROR, "Insufficient Padding!"⟩
         ↔ update_window_and_padding
             (calculate_max_window output num_elems_processed_per_iteration)
             input1
             ⟨0, 0,
              (ceil_to_multiple (input1.dimension 0) num_elems_processed_per_iteration : Int),
              (input1.dimension 1 : Int)⟩
             input2
             ⟨-((input1.dimension 0 % num_elems_processed_per_iteration : Nat) : Int), 0,
              ((input2.dimension 0
                 + input2_right_padding (output.dimension 0) (input1.dimension 0)
                     (input2.dimension 0) : Nat) : Int),
              (input2.dimension 1 : Int)⟩
             output ⟨0, num_elems_processed_per_iteration⟩ = true)
    ∧ (∀ (fp16_supported : Bool) (input1 input2 output : TensorDescriptor),
        (validate_and_configure_window input1 input2 output).1.error_code ≠ ErrorCode.OK
        → (CLWidthConcatenate2TensorsKernel.configure fp16_supported
            (some input1) (some input2) (some output)).isOk = false) := by
  constructor
  · intro i1 i2 o
    exact ite_insufficient_padding_iff _
  · intro fp16 i1 i2 o hbad
    dsimp only [CLWidthConcatenate2TensorsKernel.configure]
    split_ifs with h1
    · rfl
    · rfl

/-- C7 witness: with a misaligned input1 width (3) and no declared padding,
window planning fails and configure on those descriptors aborts. -/
theorem C7_witness :
    (CLWidthConcatenate2TensorsKernel.configure true
        (some i1b) (some i2b) (some ob)).isOk = false :=
  C7_insufficient_padding.2 true i1b i2b ob (by decide)

/-- C9: every successfully configured instance has a tuning cache key of the
form `concatenate_width_x2_<type>_<in1w>_<in1h>_<in2w>_<in2h>`: the fixed
prefix, the lower-cased data-type name, input1's width and height and
input2's width and height, separated by underscores. -/
theorem C9_config_id_shape :
    ∀ (fp16_supported : Bool) (input1 input2 output : TensorDescriptor)
      (st : ConfiguredState) (t1 t2 t3 : TensorDescriptor),
      CLWidthConcatenate2TensorsKernel.configure fp16_supported
          (some input1) (some input2) (some output) = Except.ok (st, t1, t2, t3)
      → st.config_id
        = "concatenate_width_x2_"
          ++ lower_string (string_from_data_type input1.data_type)
          ++ "_" ++ toString (input1.dimension 0)
          ++ "_" ++ toString (input1.dimension 1)
          ++ "_" ++ toString (input2.dimension 0)
          ++ "_" ++ toString (input2.dimension 1) := by
  intro fp16 i1 i2 o st t1 t2 t3 h
  dsimp only [CLWidthConcatenate2TensorsKernel.configure] at h
  split_ifs at h with h1 h2
  simp only [Except.ok.injEq, Prod.mk.injEq] at h
  rw [← h.1]
  rfl

/-- C9 witness: the example configuration's tuning key. -/
theorem C9_witness : cfgc.config_id = "concatenate_width_x2_f32_8_2_8_2" := by
  have h := C9_config_id_shape true i1c i2c oc cfgc i1c i2c oc_after
    (by with_unfolding_all rfl)
  rw [h]
  decide

/-- C10: after every successful configure, the output descriptor's valid
region is the full tensor shape anchored at the origin, whatever it was
before, and that is the only change configure makes to the descriptors: the
output's other fields and both inputs are returned unchanged. -/
theorem C10_output_valid_region :
    ∀ (fp16_supported : Bool) (input1 input2 output : TensorDescriptor)
      (st : ConfiguredState) (t1 t2 t3 : TensorDescriptor),
      CLWidthConcatenate2TensorsKernel.configure fp16_supported
          (some input1) (some input2) (some output) = Except.ok (st, t1, t2, t3)
      → t3 = { output with valid_region := ⟨Coordinates.origin, output.dims⟩ }
        ∧ t1 = input1 ∧ t2 = input2 := by
  intro fp16 i1 i2 o st t1 t2 t3 h
  dsimp only [CLWidthConcatenate2TensorsKernel.configure] at h
  split_ifs at h with h1 h2
  simp only [Except.ok.injEq, Prod.mk.injEq] at h
  exact ⟨h.2.2.2.symm, h.2.1.symm, h.2.2.1.symm⟩

/-- C10 witness: configuring the example descriptors sets the example
output's valid region to its full shape at the origin and leaves the inputs
unchanged. -/
theorem C10_witness :
    oc_after = { oc with valid_region := ⟨Coordinates.origin, oc.dims⟩ }
    ∧ i1c = i1c ∧ i2c = i2c :=
  C10_output_valid_region true i1c i2c oc cfgc i1c i2c oc_after
    (by with_unfolding_all rfl)
